import Mathlib

/-!
Verification of the test-execution and function-resolution core of the
HumanEval analysis toolkit.  The Python sources are shallowly embedded:
string manipulation is modelled over `List Char`, the Python interpreter
steps that execute arbitrary test strings (`exec`, `eval`, calling the
candidate) are oracles passed as function parameters, and the control flow
of the runners is translated statement by statement.
-/

/-- ASCII whitespace recognised by Python `str.strip` and the regex class
`\s` (space, tab, newline, carriage return, vertical tab, form feed). -/
def isPySpace (c : Char) : Bool :=
  c == ' ' || c == '\t' || c == '\n' || c == '\r' || c == '\x0b' || c == '\x0c'

/-- Boolean prefix test on character lists (Python `str.startswith`). -/
def listPrefixOfB : List Char → List Char → Bool
  | [], _ => true
  | _ :: _, [] => false
  | a :: as, b :: bs => a == b && listPrefixOfB as bs

/-- Boolean substring test on character lists (Python `in` on strings). -/
def listInfixOf : List Char → List Char → Bool
  | n, [] => n.isEmpty
  | n, d :: t => listPrefixOfB n (d :: t) || listInfixOf n t

/-- Left strip of Python `str.strip`. -/
def pyLStripL (l : List Char) : List Char := l.dropWhile (fun c => isPySpace c)

/-- Right strip of Python `str.rstrip`. -/
def pyRStripL (l : List Char) : List Char :=
  (l.reverse.dropWhile (fun c => isPySpace c)).reverse

/-- Python `str.strip()`: whitespace removed from both ends. -/
def pyStrip (s : String) : String := ⟨pyRStripL (pyLStripL s.data)⟩

/-- Python `str.rstrip()`. -/
def pyRStrip (s : String) : String := ⟨pyRStripL s.data⟩

/-- Python `s.startswith(p)`. -/
def pyStartsWith (s p : String) : Bool := listPrefixOfB p.data s.data

/-- Python `n in s` substring test. -/
def pyIn (n s : String) : Bool := listInfixOf n.data s.data

/-- Test-string normalization shared by all three runners:
`test_code = test_case.strip()`, and if it does not start with
`assert` then `test_code = f"assert {test_code}"`. -/
def pyNormalize (s : String) : String :=
  let t := pyStrip s
  if pyStartsWith t ("assert") then t else ("assert ") ++ t

theorem listPrefixOfB_append (a y : List Char) : listPrefixOfB a (a ++ y) = true := by
  induction a with
  | nil => rfl
  | cons c cs ih => simp [listPrefixOfB, ih]

theorem string_data_append (a b : String) : (a ++ b).data = a.data ++ b.data := by
  cases a; cases b; rfl

theorem listPrefixOfB_iff (a b : List Char) :
    listPrefixOfB a b = true ↔ ∃ y, b = a ++ y := by
  induction a generalizing b with
  | nil => simp [listPrefixOfB]
  | cons c cs ih =>
    cases b with
    | nil => simp [listPrefixOfB]
    | cons d ds =>
      simp only [listPrefixOfB, Bool.and_eq_true, beq_iff_eq, ih]
      constructor
      · rintro ⟨rfl, y, rfl⟩
        exact ⟨y, rfl⟩
      · rintro ⟨y, hy⟩
        injection hy with h1 h2
        exact ⟨h1.symm, y, h2⟩

theorem listInfixOf_iff (n h : List Char) :
    listInfixOf n h = true ↔ ∃ x y, h = x ++ n ++ y := by
  induction h with
  | nil =>
    simp only [listInfixOf, List.isEmpty_iff]
    constructor
    · rintro rfl
      exact ⟨[], [], rfl⟩
    · rintro ⟨x, y, hxy⟩
      cases x <;> cases n <;> simp_all
  | cons d ds ih =>
    simp only [listInfixOf, Bool.or_eq_true, ih]
    constructor
    · rintro (hp | ⟨x, y, rfl⟩)
      · rw [listPrefixOfB_iff] at hp
        obtain ⟨y, hy⟩ := hp
        exact ⟨[], y, by simpa using hy⟩
      · exact ⟨d :: x, y, by simp⟩
    · rintro ⟨x, y, hxy⟩
      cases x with
      | nil =>
        left
        rw [listPrefixOfB_iff]
        refine ⟨y, ?_⟩
        simpa using hxy
      | cons x0 xs =>
        right
        injection hxy with h1 h2
        exact ⟨xs, y, h2⟩

theorem listInfixOf_of_split (n x y : List Char) :
    listInfixOf n (x ++ n ++ y) = true :=
  (listInfixOf_iff n (x ++ n ++ y)).mpr ⟨x, y, rfl⟩

/-- C9: every test-case string is first trimmed; when the trimmed string
already starts with the keyword `assert` it is executed unchanged, and
otherwise `assert ` is prepended to the trimmed text, so a bare
expression becomes an implicit assertion; in both cases the executed
string starts with `assert`. -/
theorem c9_normalization (s : String) :
    pyNormalize s =
      (if pyStartsWith (pyStrip s) ("assert") then pyStrip s
       else ("assert ") ++ pyStrip s)
    ∧ pyStartsWith (pyNormalize s) ("assert") = true := by
  refine ⟨rfl, ?_⟩
  unfold pyNormalize
  by_cases h : pyStartsWith (pyStrip s) ("assert") = true
  · simp [h]
  · rw [Bool.not_eq_true] at h
    simp only [h, Bool.false_eq_true, if_false]
    unfold pyStartsWith
    rw [string_data_append]
    have hd : ("assert ").data = ("assert").data ++ [' '] := by decide
    rw [hd, List.append_assoc]
    exact listPrefixOfB_append _ _

/-!
## Resolver

`Task3/test_runner.py` loads the module and binds `module.candidate` when
that attribute exists; otherwise it iterates over `dir(module)` (which
Python returns sorted by code point) and picks the first attribute whose
name does not start with an underscore and whose value is callable.

`code_enhancer.py` instead walks the parsed AST and collects the
`FunctionDef` names that do not start with an underscore, in declaration
order, taking the first as the primary function.
-/

/-- A loaded Python module: its attribute names together with whether the
attribute value is callable.  Exec of a solution file yields its declared
functions (callable) plus the standard dunder attributes. -/
def PyModule : Type := List (String × Bool)

/-- Lexicographic comparison of strings by character code point, as used
by Python `sorted` over `dir(module)`. -/
def lexLt : List Char → List Char → Bool
  | [], [] => false
  | [], _ :: _ => true
  | _ :: _, [] => false
  | a :: as, b :: bs => a.toNat < b.toNat || (a.toNat == b.toNat && lexLt as bs)

/-- Insertion step of the sort performed by Python `dir`. -/
def insertStr (s : String) : List String → List String
  | [] => [s]
  | t :: rest => if lexLt s.data t.data then s :: t :: rest else t :: insertStr s rest

/-- Names of `dir(module)` are returned in sorted order. -/
def sortStrs : List String → List String
  | [] => []
  | s :: rest => insertStr s (sortStrs rest)

/-- The module namespace produced by executing a solution file that
declares the given functions: each function name bound to a callable,
plus the standard non-callable dunder attributes. -/
def mkModule (funcs : List String) : PyModule :=
  funcs.map (fun f => (f, true)) ++
    [("__builtins__", false), ("__doc__", false), ("__file__", false),
     ("__loader__", false), ("__name__", false), ("__package__", false),
     ("__spec__", false)]

/-- Resolver of `Task3/test_runner.py` (lines 39-51): bind the attribute
literally named `candidate` when present, otherwise scan `dir(module)` for
the first non-underscore callable attribute; `none` models the
`ValueError("No function found in module")` path. -/
def resolveT3 (m : PyModule) : Option String :=
  let attrs : List (String × Bool) := m
  if attrs.any (fun p => p.1 == ("candidate")) then some ("candidate")
  else (sortStrs (attrs.map Prod.fst)).find?
    (fun n => !(pyStartsWith n ("_")) &&
      (((attrs.find? (fun p => p.1 == n)).map Prod.snd).getD false))

/-- Resolver of `code_enhancer.py` `get_function_info` (lines 22-58): the
input is the list of `FunctionDef` names met by `ast.walk`, in order; the
primary function is the first whose name does not start with `_`, and the
alias list adds `candidate` when the primary has another name, plus
`skjkasdkd` for problem `HumanEval/94`. -/
def get_function_info (walkNames : List String) (pid : String) :
    Option (String × List String) :=
  match walkNames.filter (fun n => !(pyStartsWith n ("_"))) with
  | [] => none
  | primary :: _ =>
    some (primary,
      (if primary ≠ ("candidate") then [("candidate")] else []) ++
      (if pid = ("HumanEval/94") ∧ primary ≠ ("skjkasdkd") then [("skjkasdkd")] else []))

/-!
## Executor

Executing one normalized test string under `exec(test_code, {'candidate':
candidate})` is modelled by an oracle of type `String → PyExec`: the
Python interpreter either completes, raises `AssertionError` (carrying
`str(e)`), or raises some other exception (carrying the type name and
`str(e)`).  The Task3 failed-branch re-derivation
`candidate(eval(input_val))` is a second oracle producing either
`repr(actual)` or the raised exception.
-/

/-- Result of executing one normalized assertion string. -/
inductive PyExec where
  | ok : PyExec
  | assertErr : String → PyExec
  | exc : String → String → PyExec
deriving DecidableEq

/-- Outcome of the diagnostic re-invocation `candidate(eval(input_val))`:
`Except.ok` carries `repr(actual)`, `Except.error` the exception type name
and message. -/
def Rederive : Type := String → Except (String × String) String

/-- Tail of the regex `candidate\((.*?)\)\s*==\s*(.+)` after the closing
parenthesis: skip whitespace, require `==`, skip whitespace, and take the
rest of the line as the (greedy, nonempty) second group. -/
def matchTailEq (cs : List Char) : Option (List Char) :=
  match cs.dropWhile (fun c => isPySpace c) with
  | '=' :: '=' :: rest =>
    let g2 := (rest.dropWhile (fun c => isPySpace c)).takeWhile (fun c => !(c == '\n'))
    if g2.isEmpty then none else some g2
  | _ => none

/-- Backtracking match of `(.*?)\)\s*==\s*(.+)`: the non-greedy first
group grows one character at a time; a closing parenthesis is tried as
the group terminator and swallowed into the group when the tail fails. -/
def matchArg : List Char → List Char → Option (List Char × List Char)
  | _, [] => none
  | acc, c :: cs =>
    if c == ')' then
      match matchTailEq cs with
      | some g2 => some (acc.reverse, g2)
      | none => matchArg (c :: acc) cs
    else if c == '\n' then none
    else matchArg (c :: acc) cs

/-- Search phase of `re.search(r"candidate\((.*?)\)\s*==\s*(.+)", s)`:
try each start position from the left. -/
def reSearchCandL : List Char → Option (List Char × List Char)
  | [] => none
  | c :: rest =>
    if listPrefixOfB ("candidate(").data (c :: rest) then
      match matchArg [] ((c :: rest).drop 10) with
      | some r => some r
      | none => reSearchCandL rest
    else reSearchCandL rest

/-- String wrapper for the regex search; the first group (the argument
text) is used raw, the second (the expected literal) is `.strip()`ed as
at `test_runner.py:85` and `:102`. -/
def reSearchCand (s : String) : Option (String × String) :=
  (reSearchCandL s.data).map (fun p => (⟨p.1⟩, pyStrip ⟨p.2⟩))

/-- Classification of one test case by `Task3/test_runner.py` (lines
68-117): `none` is a pass; a failure or error is `some` recorded message.
On `AssertionError` the equality pattern is re-matched and the callable
re-invoked for the `Expected/Got` diagnostic, any exception in that
re-derivation falling back to `Assertion failed: …`; other exceptions
are recorded as `Error: type: message`. -/
def classifyT3 (exec : String → PyExec) (call : Rederive) (tc : String) :
    Option String :=
  match exec (pyNormalize tc) with
  | PyExec.ok => none
  | PyExec.assertErr _ =>
    match reSearchCand (pyNormalize tc) with
    | some (args, expected) =>
      match call args with
      | Except.ok actual => some (("Expected: ") ++ expected ++ (", Got: ") ++ actual)
      | Except.error p => some (("Assertion failed: ") ++ p.2)
    | none => some ("Assertion failed")
  | PyExec.exc ty msg => some (("Error: ") ++ ty ++ (": ") ++ msg)

/-- Classification of one test case by `Task2/test_runner_notebook.py`
(lines 45-55): every exception, assertion failure or not, is recorded
uniformly as `str(e)`. -/
def classifyT2 (exec : String → PyExec) (tc : String) : Option String :=
  match exec (pyNormalize tc) with
  | PyExec.ok => none
  | PyExec.assertErr m => some m
  | PyExec.exc _ m => some m

/-- The enumeration loop shared by both runners: test cases are visited
in order with their index, passes append the index to `passed` and
failures append `(index, message)` to `failed`. -/
def runLoop (cl : String → Option String) :
    List String → Nat → List Nat × List (Nat × String)
  | [], _ => ([], [])
  | tc :: rest, i =>
    let r := runLoop cl rest (i + 1)
    match cl tc with
    | none => (i :: r.1, r.2)
    | some m => (r.1, (i, m) :: r.2)

/-- Result dictionary of `run_tests_and_report`; the module-load error
path returns a dictionary without the `passed_tests`/`failed_tests`
keys, modelled by `Option`. -/
structure T3Report where
  passed : List Nat
  failed : List (Nat × String)
  total : Nat
  pass_rate : ℚ
  passed_tests : Option (List String)
  failed_tests : Option (List (String × String))
deriving DecidableEq

/-- The summary assembled at `test_runner.py:120` and `138-145`. -/
def mkT3Report (T : List String) (pf : List Nat × List (Nat × String)) : T3Report :=
  { passed := pf.1
    failed := pf.2
    total := T.length
    pass_rate := if T.isEmpty then 0 else ((pf.1.length : ℚ) / (T.length : ℚ)) * 100
    passed_tests := some (pf.1.map (fun i => T.getD i ("")))
    failed_tests := some (pf.2.map (fun p => (T.getD p.1 (""), p.2))) }

/-- `Task3/test_runner.py` `run_tests_and_report`: loading the module is
an oracle (`Except.error e` carries `str(e)` of the raised exception);
a load failure or a failed resolution returns the all-errored dictionary
of lines 57-62, otherwise every test case is classified in order. -/
def run_tests_and_report (load : Except String PyModule)
    (exec : String → PyExec) (call : Rederive) (T : List String) : T3Report :=
  match (match load with
         | Except.error e => Except.error e
         | Except.ok m =>
           match resolveT3 m with
           | some f => Except.ok f
           | none => Except.error ("No function found in module")) with
  | Except.error e =>
    { passed := []
      failed := (List.range T.length).map (fun i => (i, e))
      total := T.length
      pass_rate := 0
      passed_tests := none
      failed_tests := none }
  | Except.ok _ => mkT3Report T (runLoop (classifyT3 exec call) T 0)

/-- Result dictionary of Task2 `run_tests` (lines 59-67). -/
structure T2Report where
  passed : List Nat
  failed : List (Nat × String)
  total : Nat
  pass_rate : ℚ
  passed_count : Nat
  failed_count : Nat
  failed_tests : List (Nat × String × String)
deriving DecidableEq

/-- The record built by Task2 `run_tests` once the module has loaded. -/
def runTestsRecord (exec : String → PyExec) (T : List String) : T2Report :=
  let pf := runLoop (classifyT2 exec) T 0
  { passed := pf.1
    failed := pf.2
    total := T.length
    pass_rate := if T.isEmpty then 0 else ((pf.1.length : ℚ) / (T.length : ℚ)) * 100
    passed_count := pf.1.length
    failed_count := pf.2.length
    failed_tests := pf.2.map (fun p => (p.1, T.getD p.1 (""), p.2)) }

/-- `Task2/test_runner_notebook.py` `run_tests`: the module load (lines
28-30) is not guarded, so a load failure propagates to the caller,
modelled by `Except.error`. -/
def run_tests (load : Except String Unit) (exec : String → PyExec)
    (T : List String) : Except String T2Report :=
  match load with
  | Except.error e => Except.error e
  | Except.ok _ => Except.ok (runTestsRecord exec T)

/-!
## Properties of the enumeration loop
-/

theorem runLoop_fst_mem (cl : String → Option String) (T : List String) (i j : Nat) :
    j ∈ (runLoop cl T i).1 ↔
      ∃ k, k < T.length ∧ j = i + k ∧ cl (T.getD k ("")) = none := by
  induction T generalizing i with
  | nil => simp [runLoop]
  | cons tc rest ih =>
    cases h : cl tc with
    | none =>
      simp only [runLoop, h, List.mem_cons, ih]
      constructor
      · rintro (rfl | ⟨k, hk, rfl, hcl⟩)
        · exact ⟨0, by simp, by simp, by simpa using h⟩
        · exact ⟨k + 1, by simpa using hk, by omega, by simpa using hcl⟩
      · rintro ⟨k, hk, rfl, hcl⟩
        cases k with
        | zero => left; omega
        | succ k =>
          right
          exact ⟨k, by simpa using hk, by omega, by simpa using hcl⟩
    | some m =>
      simp only [runLoop, h, ih]
      constructor
      · rintro ⟨k, hk, rfl, hcl⟩
        exact ⟨k + 1, by simpa using hk, by omega, by simpa using hcl⟩
      · rintro ⟨k, hk, rfl, hcl⟩
        cases k with
        | zero =>
          simp only [List.getD_cons_zero] at hcl
          rw [hcl] at h
          cases h
        | succ k =>
          exact ⟨k, by simpa using hk, by omega, by simpa using hcl⟩

theorem runLoop_snd_mem (cl : String → Option String) (T : List String)
    (i j : Nat) (m : String) :
    (j, m) ∈ (runLoop cl T i).2 ↔
      ∃ k, k < T.length ∧ j = i + k ∧ cl (T.getD k ("")) = some m := by
  induction T generalizing i with
  | nil => simp [runLoop]
  | cons tc rest ih =>
    cases h : cl tc with
    | none =>
      simp only [runLoop, h, ih]
      constructor
      · rintro ⟨k, hk, rfl, hcl⟩
        exact ⟨k + 1, by simpa using hk, by omega, by simpa using hcl⟩
      · rintro ⟨k, hk, rfl, hcl⟩
        cases k with
        | zero =>
          simp only [List.getD_cons_zero] at hcl
          rw [hcl] at h
          cases h
        | succ k =>
          exact ⟨k, by simpa using hk, by omega, by simpa using hcl⟩
    | some m0 =>
      simp only [runLoop, h, List.mem_cons, ih, Prod.mk.injEq]
      constructor
      · rintro (⟨rfl, rfl⟩ | ⟨k, hk, rfl, hcl⟩)
        · exact ⟨0, by simp, by simp, by simpa using h⟩
        · exact ⟨k + 1, by simpa using hk, by omega, by simpa using hcl⟩
      · rintro ⟨k, hk, rfl, hcl⟩
        cases k with
        | zero =>
          left
          simp only [List.getD_cons_zero] at hcl
          rw [hcl] at h
          injection h with h
          exact ⟨by omega, h⟩
        | succ k =>
          right
          exact ⟨k, by simpa using hk, by omega, by simpa using hcl⟩

theorem runLoop_length (cl : String → Option String) (T : List String) (i : Nat) :
    (runLoop cl T i).1.length + (runLoop cl T i).2.length = T.length := by
  induction T generalizing i with
  | nil => simp [runLoop]
  | cons tc rest ih =>
    cases h : cl tc with
    | none =>
      simp only [runLoop, h, List.length_cons]
      have := ih (i + 1)
      omega
    | some m =>
      simp only [runLoop, h, List.length_cons]
      have := ih (i + 1)
      omega

theorem runLoop_fst_sorted (cl : String → Option String) (T : List String) (i : Nat) :
    List.Pairwise (· < ·) (runLoop cl T i).1 := by
  induction T generalizing i with
  | nil => simp [runLoop]
  | cons tc rest ih =>
    cases h : cl tc with
    | none =>
      simp only [runLoop, h, List.pairwise_cons]
      refine ⟨fun j hj => ?_, ih (i + 1)⟩
      obtain ⟨k, _, rfl, _⟩ := (runLoop_fst_mem cl rest (i + 1) j).mp hj
      omega
    | some m => simpa [runLoop, h] using ih (i + 1)

theorem runLoop_snd_sorted (cl : String → Option String) (T : List String) (i : Nat) :
    List.Pairwise (fun a b => a.1 < b.1) (runLoop cl T i).2 := by
  induction T generalizing i with
  | nil => simp [runLoop]
  | cons tc rest ih =>
    cases h : cl tc with
    | none => simpa [runLoop, h] using ih (i + 1)
    | some m =>
      simp only [runLoop, h, List.pairwise_cons]
      refine ⟨fun p hp => ?_, ih (i + 1)⟩
      obtain ⟨k, _, hk, _⟩ :=
        (runLoop_snd_mem cl rest (i + 1) p.1 p.2).mp (by simpa using hp)
      simp only [hk]
      omega

/-- C2: the Executor produces exactly one outcome per test case.  Over
any binding (abstracted as the pair of execution oracles) and ordered
test list, the passed-index list and failed-index list are disjoint,
their union is exactly `0 .. len T - 1`, their lengths sum to `len T`,
both are in input order, and the outcome recorded at index `j` is the
classification of `T[j]`. -/
theorem c2_outcome_partition (exec : String → PyExec) (call : Rederive)
    (T : List String) :
    (∀ j, j ∈ (runLoop (classifyT3 exec call) T 0).1 ↔
        j < T.length ∧ classifyT3 exec call (T.getD j ("")) = none)
    ∧ (∀ j m, (j, m) ∈ (runLoop (classifyT3 exec call) T 0).2 ↔
        j < T.length ∧ classifyT3 exec call (T.getD j ("")) = some m)
    ∧ (∀ j, ¬ (j ∈ (runLoop (classifyT3 exec call) T 0).1 ∧
        ∃ m, (j, m) ∈ (runLoop (classifyT3 exec call) T 0).2))
    ∧ (∀ j, (j ∈ (runLoop (classifyT3 exec call) T 0).1 ∨
        ∃ m, (j, m) ∈ (runLoop (classifyT3 exec call) T 0).2) ↔ j < T.length)
    ∧ (runLoop (classifyT3 exec call) T 0).1.length +
        (runLoop (classifyT3 exec call) T 0).2.length = T.length
    ∧ List.Pairwise (· < ·) (runLoop (classifyT3 exec call) T 0).1
    ∧ List.Pairwise (fun a b => a.1 < b.1) (runLoop (classifyT3 exec call) T 0).2 := by
  have hfst : ∀ j, j ∈ (runLoop (classifyT3 exec call) T 0).1 ↔
      j < T.length ∧ classifyT3 exec call (T.getD j ("")) = none := by
    intro j
    rw [runLoop_fst_mem]
    constructor
    · rintro ⟨k, hk, rfl, hcl⟩
      exact ⟨by omega, by simpa using hcl⟩
    · rintro ⟨hj, hcl⟩
      exact ⟨j, hj, by omega, hcl⟩
  have hsnd : ∀ j m, (j, m) ∈ (runLoop (classifyT3 exec call) T 0).2 ↔
      j < T.length ∧ classifyT3 exec call (T.getD j ("")) = some m := by
    intro j m
    rw [runLoop_snd_mem]
    constructor
    · rintro ⟨k, hk, rfl, hcl⟩
      exact ⟨by omega, by simpa using hcl⟩
    · rintro ⟨hj, hcl⟩
      exact ⟨j, hj, by omega, hcl⟩
  refine ⟨hfst, hsnd, ?_, ?_, runLoop_length _ _ _,
    runLoop_fst_sorted _ _ _, runLoop_snd_sorted _ _ _⟩
  · rintro j ⟨hp, m, hf⟩
    have h1 := (hfst j).mp hp
    have h2 := (hsnd j m).mp hf
    rw [h1.2] at h2
    cases h2.2
  · intro j
    constructor
    · rintro (hp | ⟨m, hf⟩)
      · exact ((hfst j).mp hp).1
      · exact ((hsnd j m).mp hf).1
    · intro hj
      cases hcl : classifyT3 exec call (T.getD j ("")) with
      | none => exact Or.inl ((hfst j).mpr ⟨hj, hcl⟩)
      | some m => exact Or.inr ⟨m, (hsnd j m).mpr ⟨hj, hcl⟩⟩

/-- Witness for C9 at a concrete bare-expression test case. -/
theorem c9_witness :
    pyNormalize ("candidate(2) == 4") = ("assert candidate(2) == 4")
    ∧ pyStartsWith (pyNormalize ("candidate(2) == 4")) ("assert") = true := by
  have h := c9_normalization ("candidate(2) == 4")
  exact ⟨by decide, h.2⟩

/-!
## Concrete oracles used in witnesses and counterexamples
-/

/-- Oracle of a test whose evaluation raises `ZeroDivisionError`. -/
def execDivFault : String → PyExec :=
  fun _ => PyExec.exc ("ZeroDivisionError") ("division by zero")

/-- Oracle of a test whose evaluation raises an `AssertionError` whose
`str(e)` happens to equal the division-fault message. -/
def execAssertFault : String → PyExec :=
  fun _ => PyExec.assertErr ("division by zero")

/-- Oracle of a test suite where every test passes. -/
def execAllOk : String → PyExec := fun _ => PyExec.ok

/-- Oracle of a plain assertion failure with empty message. -/
def execAssertEmpty : String → PyExec := fun _ => PyExec.assertErr ("")

/-- Re-derivation oracle returning `repr(actual) = 9`. -/
def callOk9 : Rederive := fun _ => Except.ok ("9")

/-- Re-derivation oracle that itself raises a `TypeError`. -/
def callRaises : Rederive :=
  fun _ => Except.error (("TypeError"), ("unsupported operand"))

/-- Witness for C2 at a two-element test list: the first test passes,
the second raises a runtime fault. -/
def execOkThenFault : String → PyExec :=
  fun s => if s = ("assert candidate(1) == 1") then PyExec.ok
           else PyExec.exc ("ZeroDivisionError") ("division by zero")

theorem c2_witness :
    (∀ j, j ∈ (runLoop (classifyT3 execOkThenFault callOk9)
        [("candidate(1) == 1"), ("candidate(0) == 1")] 0).1 ↔
        j < ([("candidate(1) == 1"), ("candidate(0) == 1")] : List String).length ∧
        classifyT3 execOkThenFault callOk9
          (([("candidate(1) == 1"), ("candidate(0) == 1")] : List String).getD j ("")) = none)
    ∧ (∀ j m, (j, m) ∈ (runLoop (classifyT3 execOkThenFault callOk9)
        [("candidate(1) == 1"), ("candidate(0) == 1")] 0).2 ↔
        j < ([("candidate(1) == 1"), ("candidate(0) == 1")] : List String).length ∧
        classifyT3 execOkThenFault callOk9
          (([("candidate(1) == 1"), ("candidate(0) == 1")] : List String).getD j ("")) = some m)
    ∧ (∀ j, ¬ (j ∈ (runLoop (classifyT3 execOkThenFault callOk9)
        [("candidate(1) == 1"), ("candidate(0) == 1")] 0).1 ∧
        ∃ m, (j, m) ∈ (runLoop (classifyT3 execOkThenFault callOk9)
          [("candidate(1) == 1"), ("candidate(0) == 1")] 0).2))
    ∧ (∀ j, (j ∈ (runLoop (classifyT3 execOkThenFault callOk9)
        [("candidate(1) == 1"), ("candidate(0) == 1")] 0).1 ∨
        ∃ m, (j, m) ∈ (runLoop (classifyT3 execOkThenFault callOk9)
          [("candidate(1) == 1"), ("candidate(0) == 1")] 0).2) ↔
        j < ([("candidate(1) == 1"), ("candidate(0) == 1")] : List String).length)
    ∧ (runLoop (classifyT3 execOkThenFault callOk9)
        [("candidate(1) == 1"), ("candidate(0) == 1")] 0).1.length +
      (runLoop (classifyT3 execOkThenFault callOk9)
        [("candidate(1) == 1"), ("candidate(0) == 1")] 0).2.length =
        ([("candidate(1) == 1"), ("candidate(0) == 1")] : List String).length
    ∧ List.Pairwise (· < ·) (runLoop (classifyT3 execOkThenFault callOk9)
        [("candidate(1) == 1"), ("candidate(0) == 1")] 0).1
    ∧ List.Pairwise (fun a b => a.1 < b.1) (runLoop (classifyT3 execOkThenFault callOk9)
        [("candidate(1) == 1"), ("candidate(0) == 1")] 0).2 :=
  c2_outcome_partition execOkThenFault callOk9
    [("candidate(1) == 1"), ("candidate(0) == 1")]

/-!
## Claim C3: classification of non-assertion exceptions
-/

/-- Counterexample to C3: in the Task2 notebook runner a test raising
`ZeroDivisionError` is recorded exactly like a test raising an
`AssertionError` with the same `str(e)` — the same `(index, message)`
entry, with no mention of the error kind — so the outcome is not a
distinct `Errored` tagged with the exception type name. -/
theorem c3_counterexample :
    run_tests (Except.ok ()) execDivFault [("candidate(1)")] =
      run_tests (Except.ok ()) execAssertFault [("candidate(1)")]
    ∧ (runTestsRecord execDivFault [("candidate(1)")]).failed =
        [(0, ("division by zero"))]
    ∧ pyIn ("ZeroDivisionError") ("division by zero") = false := by
  refine ⟨rfl, rfl, by decide⟩

/-- C3 (amended): in the Task3 runner a test raising a non-assertion
exception is recorded with reason `Error: kind: message`, a format
carrying the exception type name and distinct from both assertion-failure
formats; the Task2 notebook runner instead records any exception,
assertion failures included, as the bare `str(e)` without the kind. -/
theorem c3_amended_error_tagging (exec : String → PyExec) (call : Rederive)
    (tc ty msg : String) (h : exec (pyNormalize tc) = PyExec.exc ty msg) :
    classifyT3 exec call tc = some (("Error: ") ++ ty ++ (": ") ++ msg)
    ∧ classifyT2 exec tc = some msg := by
  constructor
  · unfold classifyT3
    rw [h]
  · unfold classifyT2
    rw [h]

/-- Witness for the amended C3 at the division-fault oracle. -/
theorem c3_witness :
    classifyT3 execDivFault callOk9 ("candidate(1)") =
      some ("Error: ZeroDivisionError: division by zero")
    ∧ classifyT2 execDivFault ("candidate(1)") = some ("division by zero") :=
  c3_amended_error_tagging execDivFault callOk9 ("candidate(1)")
    ("ZeroDivisionError") ("division by zero") rfl

/-!
## Claim C4: unloadable artifacts and artifacts without callables
-/

/-- Counterexample to C4: the Task2 notebook runner does not guard the
module load, so an artifact that cannot be loaded raises out of
`run_tests` — the exception propagates to the caller instead of every
test case being recorded as errored with `pass_rate` 0. -/
theorem c4_counterexample :
    run_tests (Except.error ("No module named x")) execAllOk
      [("candidate(1) == 1"), ("candidate(2) == 2")] =
      Except.error ("No module named x") := rfl

/-- C4 (amended): the Task3 runner never crashes on a bad artifact: a
load failure, or a loaded module in which no non-private callable is
found, yields a report in which every supplied test case is recorded as
errored with the same underlying message, with `pass_rate` 0, so only
that artifact's evaluation is aborted; the Task2 notebook runner instead
propagates load errors to its caller. -/
theorem c4_amended_artifact_errors :
    (∀ (e : String) (exec : String → PyExec) (call : Rederive) (T : List String),
      run_tests_and_report (Except.error e) exec call T =
        { passed := []
          failed := (List.range T.length).map (fun i => (i, e))
          total := T.length
          pass_rate := 0
          passed_tests := none
          failed_tests := none })
    ∧ (∀ (m : PyModule) (exec : String → PyExec) (call : Rederive) (T : List String),
      resolveT3 m = none →
      run_tests_and_report (Except.ok m) exec call T =
        { passed := []
          failed := (List.range T.length).map
            (fun i => (i, ("No function found in module")))
          total := T.length
          pass_rate := 0
          passed_tests := none
          failed_tests := none })
    ∧ (∀ (e : String) (exec : String → PyExec) (T : List String),
      run_tests (Except.error e) exec T = Except.error e) := by
  refine ⟨fun e exec call T => rfl, fun m exec call T hres => ?_, fun e exec T => rfl⟩
  simp only [run_tests_and_report, hres]

/-- Witness for the amended C4: a module declaring only an underscore
helper resolves to nothing, and both tests are recorded as errored with
the resolution message. -/
theorem c4_witness :
    run_tests_and_report (Except.ok (mkModule [("_helper")])) execAllOk callOk9
      [("candidate(1) == 1"), ("candidate(2) == 2")] =
      { passed := []
        failed := (List.range 2).map (fun i => (i, ("No function found in module")))
        total := 2
        pass_rate := 0
        passed_tests := none
        failed_tests := none } := by
  have h := c4_amended_artifact_errors.2.1 (mkModule [("_helper")]) execAllOk callOk9
    [("candidate(1) == 1"), ("candidate(2) == 2")] (by decide)
  simpa using h

/-!
## Claim C5: pass rate bounds
-/

theorem rate_bounds (p n : Nat) (hpn : p ≤ n) (hn : 0 < n) :
    0 ≤ ((p : ℚ) / (n : ℚ)) * 100 ∧ ((p : ℚ) / (n : ℚ)) * 100 ≤ 100 := by
  have hn0 : (0 : ℚ) < (n : ℚ) := by exact_mod_cast hn
  constructor
  · positivity
  · have h1 : ((p : ℚ) / (n : ℚ)) ≤ 1 := by
      rw [div_le_one hn0]
      exact_mod_cast hpn
    calc ((p : ℚ) / (n : ℚ)) * 100 ≤ 1 * 100 := by
          apply mul_le_mul_of_nonneg_right h1
          norm_num
      _ = 100 := by norm_num

/-- C5: for every test list the aggregate `pass_rate` lies in `[0, 100]`;
when the list is non-empty it equals `pass_count / total_count * 100`,
and when the list is empty the explicit special case makes it exactly 0,
in the Task3 runner (under any load outcome) as well as in the Task2
notebook record. -/
theorem c5_pass_rate (load : Except String PyModule) (exec : String → PyExec)
    (call : Rederive) (T : List String) :
    (0 ≤ (run_tests_and_report load exec call T).pass_rate
      ∧ (run_tests_and_report load exec call T).pass_rate ≤ 100
      ∧ (T = [] → (run_tests_and_report load exec call T).pass_rate = 0)
      ∧ (T ≠ [] → (run_tests_and_report load exec call T).pass_rate =
          ((run_tests_and_report load exec call T).passed.length : ℚ) /
            ((run_tests_and_report load exec call T).total : ℚ) * 100))
    ∧ (0 ≤ (runTestsRecord exec T).pass_rate
      ∧ (runTestsRecord exec T).pass_rate ≤ 100
      ∧ (T = [] → (runTestsRecord exec T).pass_rate = 0)
      ∧ (T ≠ [] → (runTestsRecord exec T).pass_rate =
          ((runTestsRecord exec T).passed.length : ℚ) /
            ((runTestsRecord exec T).total : ℚ) * 100)) := by
  have hgen : ∀ (cl : String → Option String),
      (0 : ℚ) ≤ (if T.isEmpty then 0
          else (((runLoop cl T 0).1.length : ℚ) / (T.length : ℚ)) * 100)
      ∧ (if T.isEmpty then 0
          else (((runLoop cl T 0).1.length : ℚ) / (T.length : ℚ)) * 100) ≤ 100
      ∧ (T = [] → (if T.isEmpty then 0
          else (((runLoop cl T 0).1.length : ℚ) / (T.length : ℚ)) * 100) = 0)
      ∧ (T ≠ [] → (if T.isEmpty then 0
          else (((runLoop cl T 0).1.length : ℚ) / (T.length : ℚ)) * 100) =
            ((runLoop cl T 0).1.length : ℚ) / (T.length : ℚ) * 100) := by
    intro cl
    by_cases hT : T = []
    · subst hT
      simp
    · have hne : T.isEmpty = false := by
        simpa [List.isEmpty_iff] using hT
      have hlen : 0 < T.length := List.length_pos.mpr hT
      have hle : (runLoop cl T 0).1.length ≤ T.length := by
        have := runLoop_length cl T 0
        omega
      have hb := rate_bounds (runLoop cl T 0).1.length T.length hle hlen
      simp only [hne, Bool.false_eq_true, if_false]
      exact ⟨hb.1, hb.2, fun h => absurd h hT, fun _ => trivial⟩
  constructor
  · rcases load with e | m
    · rw [show run_tests_and_report (Except.error e) exec call T =
          { passed := []
            failed := (List.range T.length).map (fun i => (i, e))
            total := T.length
            pass_rate := 0
            passed_tests := none
            failed_tests := none } from rfl]
      exact ⟨le_refl 0, by norm_num, fun _ => rfl, fun hne => by simp⟩
    · rcases hres : resolveT3 m with _ | f
      · have hrep : run_tests_and_report (Except.ok m) exec call T =
            { passed := []
              failed := (List.range T.length).map
                (fun i => (i, ("No function found in module")))
              total := T.length
              pass_rate := 0
              passed_tests := none
              failed_tests := none } := by
          simp only [run_tests_and_report, hres]
        rw [hrep]
        exact ⟨le_refl 0, by norm_num, fun _ => rfl, fun hne => by simp⟩
      · have hrep : run_tests_and_report (Except.ok m) exec call T =
            mkT3Report T (runLoop (classifyT3 exec call) T 0) := by
          simp only [run_tests_and_report, hres]
        rw [hrep]
        have h := hgen (classifyT3 exec call)
        simp only [mkT3Report]
        exact ⟨h.1, h.2.1, h.2.2.1, h.2.2.2⟩
  · have h := hgen (classifyT2 exec)
    simp only [runTestsRecord]
    exact ⟨h.1, h.2.1, h.2.2.1, h.2.2.2⟩

/-- Witness for C5 at a concrete one-element failing suite: the pass
rate is 0, within bounds, and equals the formula. -/
theorem c5_witness :
    (0 ≤ (run_tests_and_report (Except.ok (mkModule [("foo")])) execDivFault callOk9
        [("candidate(1)")]).pass_rate
      ∧ (run_tests_and_report (Except.ok (mkModule [("foo")])) execDivFault callOk9
          [("candidate(1)")]).pass_rate ≤ 100
      ∧ (([("candidate(1)")] : List String) = [] →
          (run_tests_and_report (Except.ok (mkModule [("foo")])) execDivFault callOk9
            [("candidate(1)")]).pass_rate = 0)
      ∧ (([("candidate(1)")] : List String) ≠ [] →
          (run_tests_and_report (Except.ok (mkModule [("foo")])) execDivFault callOk9
            [("candidate(1)")]).pass_rate =
          ((run_tests_and_report (Except.ok (mkModule [("foo")])) execDivFault callOk9
            [("candidate(1)")]).passed.length : ℚ) /
            ((run_tests_and_report (Except.ok (mkModule [("foo")])) execDivFault callOk9
              [("candidate(1)")]).total : ℚ) * 100))
    ∧ (0 ≤ (runTestsRecord execDivFault [("candidate(1)")]).pass_rate
      ∧ (runTestsRecord execDivFault [("candidate(1)")]).pass_rate ≤ 100
      ∧ (([("candidate(1)")] : List String) = [] →
          (runTestsRecord execDivFault [("candidate(1)")]).pass_rate = 0)
      ∧ (([("candidate(1)")] : List String) ≠ [] →
          (runTestsRecord execDivFault [("candidate(1)")]).pass_rate =
          ((runTestsRecord execDivFault [("candidate(1)")]).passed.length : ℚ) /
            ((runTestsRecord execDivFault [("candidate(1)")]).total : ℚ) * 100)) :=
  c5_pass_rate (Except.ok (mkModule [("foo")])) execDivFault callOk9 [("candidate(1)")]

/-!
## Claim C6: assertion failures and the diagnostic re-derivation
-/

/-- C6: when a test case of the equality form `candidate(args) ==
expected` (as recognised by the runner's pattern match on the executed
text) raises an assertion failure, the Task3 executor records it as
failed and re-invokes the bound callable on the parsed argument
expression: if the re-derivation returns `repr(actual)` the recorded
reason displays the actual value alongside the expected literal, and if
the re-derivation itself raises, the reason falls back to an
assertion-failed message instead of propagating the new exception. -/
theorem c6_assert_rederivation (exec : String → PyExec) (call : Rederive)
    (tc args expected m : String)
    (h1 : exec (pyNormalize tc) = PyExec.assertErr m)
    (h2 : reSearchCand (pyNormalize tc) = some (args, expected)) :
    classifyT3 exec call tc =
      some (match call args with
            | Except.ok actual =>
                ("Expected: ") ++ expected ++ (", Got: ") ++ actual
            | Except.error p => ("Assertion failed: ") ++ p.2) := by
  unfold classifyT3
  rw [h1, h2]
  cases hc : call args with
  | ok actual => simp only [hc]
  | error p => simp only [hc]

/-- Witness for C6: the spec scenario `candidate(3) == 10` against a
squaring function: the assertion fails, the re-derivation returns `9`,
and the recorded reason is `Expected: 10, Got: 9`; under a re-derivation
that raises, the reason falls back to `Assertion failed: …`. -/
theorem c6_witness :
    classifyT3 execAssertEmpty callOk9 ("candidate(3) == 10") =
      some ("Expected: 10, Got: 9")
    ∧ classifyT3 execAssertEmpty callRaises ("candidate(3) == 10") =
      some ("Assertion failed: unsupported operand") := by
  constructor
  · have h := c6_assert_rederivation execAssertEmpty callOk9
      ("candidate(3) == 10") ("3") ("10") ("") (by rfl) (by decide)
    simpa [callOk9] using h
  · have h := c6_assert_rederivation execAssertEmpty callRaises
      ("candidate(3) == 10") ("3") ("10") ("") (by rfl) (by decide)
    simpa [callRaises] using h

/-!
## Claim C1: fallback resolution order
-/

/-- Counterexample to C1: for an artifact declaring the callables
`[foo, _helper, bar]` and none named `candidate`, the Task3 test-runner
resolver iterates over `dir(module)` — which Python returns sorted
alphabetically — so it binds `bar`, not `foo` as the claim states. -/
theorem c1_counterexample :
    resolveT3 (mkModule [("foo"), ("_helper"), ("bar")]) = some ("bar")
    ∧ some (("bar") : String) ≠ some (("foo") : String) := by
  refine ⟨by decide, by decide⟩

/-- C1 (amended): the code-enhancer resolver does bind the first
non-underscore callable in declaration order (so `foo` for
`[foo, _helper, bar]`), but the Task3 test-runner resolver scans the
module attributes in the sorted order of `dir(module)` and therefore
binds `bar` on that same artifact. -/
theorem c1_amended_resolution_order :
    (∀ (names : List String) (pid p : String) (al : List String),
      get_function_info names pid = some (p, al) →
      (names.filter (fun n => !(pyStartsWith n ("_")))).head? = some p)
    ∧ (get_function_info [("foo"), ("_helper"), ("bar")] ("HumanEval/1")).map Prod.fst =
        some ("foo")
    ∧ resolveT3 (mkModule [("foo"), ("_helper"), ("bar")]) = some ("bar") := by
  refine ⟨?_, by decide, by decide⟩
  intro names pid p al h
  unfold get_function_info at h
  cases hfil : names.filter (fun n => !(pyStartsWith n ("_"))) with
  | nil => rw [hfil] at h; cases h
  | cons q rest =>
    rw [hfil] at h
    injection h with h
    injection h with h1 h2
    rw [h1]
    rfl

/-- Witness for the amended C1, discharging its hypothesis at the
three-callable artifact. -/
theorem c1_witness :
    (([("foo"), ("_helper"), ("bar")] : List String).filter
        (fun n => !(pyStartsWith n ("_")))).head? = some ("foo") :=
  c1_amended_resolution_order.1 [("foo"), ("_helper"), ("bar")] ("HumanEval/1")
    ("foo") [("candidate")] (by decide)

/-!
## Claim C7: the HumanEval/94 alias
-/

/-- Segments of the pytest test file generated by
`pytest_cov_enhanced_analyzer.py` `create_pytest_test_file` (lines
93-107): the header up to the `candidate` alias line. -/
def pytestHeaderA (problem_id solution_dir solution_module func_name : String) : String :=
  ("# Auto-generated pytest test for ") ++ problem_id ++
  ("\nimport sys\nsys.path.insert(0, r\x27") ++ solution_dir ++
  ("\x27)\n\ntry:\n    from ") ++ solution_module ++ (" import ") ++ func_name ++
  ("\nexcept ImportError as e:\n    print(f\"Import error: {e}\")\n    ") ++
  func_name ++ (" = None\n\n# Create aliases for test compatibility\ncandidate = ") ++
  func_name ++ ("\n")

/-- The per-test functions appended by `create_pytest_test_file` (lines
110-120), each body being the normalized test string. -/
def pytestTests : List String → Nat → String
  | [], _ => ("")
  | tc :: rest, i =>
    ("\ndef test_case_") ++ toString i ++ ("():\n    \"\"\"Test case ") ++
    toString (i + 1) ++ ("\"\"\"\n    ") ++ pyNormalize tc ++ ("\n") ++
    pytestTests rest (i + 1)

/-- The full generated pytest file: header, `candidate` alias,
unconditional `skjkasdkd` alias, then the test functions. -/
def create_pytest_test_file (problem_id solution_dir solution_module func_name : String)
    (T : List String) : String :=
  pytestHeaderA problem_id solution_dir solution_module func_name ++
  ("skjkasdkd = ") ++ func_name ++ ("  # For HumanEval/94\n\n") ++
  pytestTests T 0

/-- C7: for problem `HumanEval/94` the binding produced by the
code-enhancer resolver always exposes the name `skjkasdkd` — it is the
primary function itself or is in the alias list — and the generated
pytest file of the coverage analyzer contains the assignment
`skjkasdkd = func_name` for every problem, whatever the discovered
primary function is. -/
theorem c7_skjkasdkd_alias :
    (∀ (names : List String) (p : String) (al : List String),
      get_function_info names ("HumanEval/94") = some (p, al) →
      (("skjkasdkd") : String) ∈ p :: al)
    ∧ (∀ (problem_id solution_dir solution_module func_name : String)
        (T : List String),
      ∃ pre post,
        (create_pytest_test_file problem_id solution_dir solution_module
          func_name T).data =
          pre ++ (("skjkasdkd = ") ++ func_name).data ++ post) := by
  constructor
  · intro names p al h
    unfold get_function_info at h
    cases hfil : names.filter (fun n => !(pyStartsWith n ("_"))) with
    | nil => rw [hfil] at h; cases h
    | cons q rest =>
      rw [hfil] at h
      injection h with h
      injection h with h1 h2
      rw [← h1, ← h2]
      by_cases hq : q = ("skjkasdkd")
      · rw [hq]
        exact List.mem_cons_self _ _
      · refine List.mem_cons_of_mem _ (List.mem_append_right _ ?_)
        simp [hq]
  · intro problem_id solution_dir solution_module func_name T
    refine ⟨(pytestHeaderA problem_id solution_dir solution_module func_name).data,
      (("  # For HumanEval/94\n\n") ++ pytestTests T 0).data, ?_⟩
    unfold create_pytest_test_file
    simp only [string_data_append, List.append_assoc]

/-- Witness for C7: a HumanEval/94 artifact whose primary function is
`foo` still exposes `skjkasdkd`, and the concrete generated pytest file
for it contains the alias assignment. -/
theorem c7_witness :
    (("skjkasdkd") : String) ∈ ("foo") :: [("candidate"), ("skjkasdkd")]
    ∧ ∃ pre post,
        (create_pytest_test_file ("HumanEval/94") ("/tmp/sol") ("HumanEval_94")
          ("foo") [("candidate(1) == 1")]).data =
          pre ++ (("skjkasdkd = ") ++ ("foo")).data ++ post := by
  constructor
  · exact c7_skjkasdkd_alias.1 [("foo")] ("foo") [("candidate"), ("skjkasdkd")] (by decide)
  · exact c7_skjkasdkd_alias.2 ("HumanEval/94") ("/tmp/sol") ("HumanEval_94")
      ("foo") [("candidate(1) == 1")]

/-!
## Claim C8: the coverage-analysis timeout

`pytest_cov_enhanced_analyzer.py` runs pytest in a subprocess with
`timeout=30`; the subprocess outcome (its combined output text, a
`TimeoutExpired`, or some other exception) is the oracle here, as are
the line/branch coverage percentages parsed from the coverage JSON.
-/

/-- Value of a nonempty digit string. -/
def digitsVal (l : List Char) : Nat :=
  l.foldl (fun acc c => 10 * acc + (c.toNat - 48)) 0

/-- Search of `re.search(r"(\d+) <word>", output)`: scan start positions
from the left; at a digit, the greedy digit run must be followed by the
literal pattern. -/
def searchCountBefore (pat : List Char) : List Char → Option Nat
  | [] => none
  | c :: rest =>
    if c.isDigit then
      (if listPrefixOfB pat ((c :: rest).dropWhile Char.isDigit) then
        some (digitsVal ((c :: rest).takeWhile Char.isDigit))
      else searchCountBefore pat rest)
    else searchCountBefore pat rest

/-- ASCII lowering of Python `str.lower()`. -/
def pyLowerL (l : List Char) : List Char := l.map Char.toLower

/-- `_parse_test_counts` (lines 219-234): regex counts for passed and
failed, with the fallback that attributes all tests to passed when the
lowered output mentions `passed` and otherwise to failed. -/
def parse_test_counts (output : String) (total_tests : Nat) : Nat × Nat :=
  let p := (searchCountBefore (" passed").data output.data).getD 0
  let f := (searchCountBefore (" failed").data output.data).getD 0
  if p = 0 ∧ f = 0 then
    if listInfixOf ("passed").data (pyLowerL output.data) then (total_tests, 0)
    else (0, total_tests)
  else (p, f)

/-- Truthiness of the optional branch coverage (`branch_cov and …`):
`None` and `0.0` are falsy. -/
def truthyOpt : Option ℚ → Bool
  | none => false
  | some q => if q = 0 then false else true

/-- Tail of `_generate_interpretation` from the `line_cov >= 90` check
on (lines 290-298). -/
def interpretationTail (lc : ℚ) (bc : Option ℚ) : String :=
  if 90 ≤ lc then
    if truthyOpt bc && (match bc with | some b => decide (90 ≤ b) | none => false) then
      ("Excellent coverage - well-tested code")
    else if truthyOpt bc then ("Good line coverage but some branches untested")
    else ("Good line coverage achieved")
  else ("Adequate coverage")

/-- `_generate_interpretation` (lines 273-298). -/
def generate_interpretation (failed : Nat) (lc : ℚ) (bc : Option ℚ) : String :=
  if 0 < failed then toString failed ++ (" test(s) failed - fix failing tests first")
  else if lc < 50 then ("Low line coverage - significant untested code paths")
  else if lc < 80 then ("Moderate line coverage - some untested code paths")
  else match bc with
    | some b =>
      if b < 50 then ("Low branch coverage - untested conditional logic and error paths")
      else if b < 80 then ("Moderate branch coverage - some conditional branches untested")
      else interpretationTail lc bc
    | none => interpretationTail lc bc

/-- `_extract_errors` (lines 300-308): the first three lines mentioning
FAILED, ERROR or AssertionError, stripped. -/
def extract_errors (output : String) : List String :=
  (((output.splitOn ("\n")).filter
    (fun ln => listInfixOf ("FAILED").data ln.data ||
      listInfixOf ("ERROR").data ln.data ||
      listInfixOf ("AssertionError").data ln.data)).take 3).map (fun ln => pyStrip ln)

/-- The `CoverageResult` dataclass. -/
structure CoverageResult where
  problem_id : String
  llm_implementation : String
  tests_passed : Nat
  tests_failed : Nat
  total_tests : Nat
  line_coverage : ℚ
  branch_coverage : Option ℚ
  interpretation : String
  error_details : List String
deriving DecidableEq

/-- Outcome of the pytest subprocess: its combined stdout+stderr text,
expiry of the 30-second wall-clock timeout, or another exception. -/
inductive SubprocOutcome where
  | completed : String → SubprocOutcome
  | timeoutExpired : SubprocOutcome
  | raised : String → SubprocOutcome

/-- `run_pytest_with_coverage` (lines 128-217): on normal completion the
counts are parsed from the output and the coverage percentages come from
the coverage JSON (oracle inputs here); on `TimeoutExpired` (lines
188-199) the whole batch is reported as 0 passed / `len(T)` failed with
error detail `Timeout`; any other exception (lines 200-211) likewise
fails the whole batch with its message. -/
def run_pytest_with_coverage (subproc : SubprocOutcome) (covLine : ℚ)
    (covBranch : Option ℚ) (problem_id : String) (T : List String) : CoverageResult :=
  match subproc with
  | SubprocOutcome.completed output =>
    let counts := parse_test_counts output T.length
    { problem_id := problem_id
      llm_implementation := ("")
      tests_passed := counts.1
      tests_failed := counts.2
      total_tests := T.length
      line_coverage := covLine
      branch_coverage := covBranch
      interpretation := generate_interpretation counts.2 covLine covBranch
      error_details := extract_errors output }
  | SubprocOutcome.timeoutExpired =>
    { problem_id := problem_id
      llm_implementation := ("")
      tests_passed := 0
      tests_failed := T.length
      total_tests := T.length
      line_coverage := 0
      branch_coverage := none
      interpretation := ("Timeout - execution exceeded 30 seconds")
      error_details := [("Timeout")] }
  | SubprocOutcome.raised msg =>
    { problem_id := problem_id
      llm_implementation := ("")
      tests_passed := 0
      tests_failed := T.length
      total_tests := T.length
      line_coverage := 0
      branch_coverage := none
      interpretation := ("Error: ") ++ msg
      error_details := [msg] }

/-- C8: when the batch timeout expires in the coverage-analysis variant,
no partial result is reported: the artifact's record marks zero tests
passed and all `len T` tests failed with the single error detail
`Timeout`, and it still accounts for every test, with `tests_passed +
tests_failed = total_tests = len T`. -/
theorem c8_timeout_accounting (covLine : ℚ) (covBranch : Option ℚ)
    (problem_id : String) (T : List String) :
    (run_pytest_with_coverage SubprocOutcome.timeoutExpired covLine covBranch
        problem_id T).tests_passed = 0
    ∧ (run_pytest_with_coverage SubprocOutcome.timeoutExpired covLine covBranch
        problem_id T).tests_failed = T.length
    ∧ (run_pytest_with_coverage SubprocOutcome.timeoutExpired covLine covBranch
        problem_id T).total_tests = T.length
    ∧ (run_pytest_with_coverage SubprocOutcome.timeoutExpired covLine covBranch
        problem_id T).tests_passed +
      (run_pytest_with_coverage SubprocOutcome.timeoutExpired covLine covBranch
        problem_id T).tests_failed =
      (run_pytest_with_coverage SubprocOutcome.timeoutExpired covLine covBranch
        problem_id T).total_tests
    ∧ (run_pytest_with_coverage SubprocOutcome.timeoutExpired covLine covBranch
        problem_id T).error_details = [("Timeout")] :=
  ⟨rfl, rfl, rfl, by simp [run_pytest_with_coverage], rfl⟩

/-- Witness for C8 at a concrete three-test batch. -/
theorem c8_witness :
    (run_pytest_with_coverage SubprocOutcome.timeoutExpired 0 none
        ("HumanEval/5") [("a"), ("b"), ("c")]).tests_passed = 0
    ∧ (run_pytest_with_coverage SubprocOutcome.timeoutExpired 0 none
        ("HumanEval/5") [("a"), ("b"), ("c")]).tests_failed =
        ([("a"), ("b"), ("c")] : List String).length
    ∧ (run_pytest_with_coverage SubprocOutcome.timeoutExpired 0 none
        ("HumanEval/5") [("a"), ("b"), ("c")]).total_tests =
        ([("a"), ("b"), ("c")] : List String).length
    ∧ (run_pytest_with_coverage SubprocOutcome.timeoutExpired 0 none
        ("HumanEval/5") [("a"), ("b"), ("c")]).tests_passed +
      (run_pytest_with_coverage SubprocOutcome.timeoutExpired 0 none
        ("HumanEval/5") [("a"), ("b"), ("c")]).tests_failed =
      (run_pytest_with_coverage SubprocOutcome.timeoutExpired 0 none
        ("HumanEval/5") [("a"), ("b"), ("c")]).total_tests
    ∧ (run_pytest_with_coverage SubprocOutcome.timeoutExpired 0 none
        ("HumanEval/5") [("a"), ("b"), ("c")]).error_details = [("Timeout")] :=
  c8_timeout_accounting 0 none ("HumanEval/5") [("a"), ("b"), ("c")]

/-!
## Claim C10: the code enhancer

`code_enhancer.py` `enhance_file` re-reads the source text, computes the
needed aliases via `get_function_info`, and either copies the file
unchanged or writes `content.rstrip()` followed by a comment line and
one `alias = primary` line per alias not already occurring (as a
substring) in the text.
-/

theorem concat_injL {u v : List Char} {a b : Char} (h : u ++ [a] = v ++ [b]) :
    u = v ∧ a = b := by
  have h2 := congrArg List.reverse h
  simp only [List.reverse_append, List.reverse_cons, List.reverse_nil,
    List.nil_append, List.singleton_append] at h2
  injection h2 with h3 h4
  refine ⟨?_, h3⟩
  have h5 := congrArg List.reverse h4
  simpa using h5

theorem split_drop_ws_concat (n z : List Char) (c : Char) (hc : isPySpace c = true)
    (hne : n ≠ []) (hnw : ∀ x ∈ n, isPySpace x = false)
    (h : ∃ x y, z ++ [c] = x ++ n ++ y) : ∃ x y, z = x ++ n ++ y := by
  obtain ⟨x, y, hxy⟩ := h
  rcases List.eq_nil_or_concat y with rfl | ⟨y0, c2, rfl⟩
  · rcases List.eq_nil_or_concat n with rfl | ⟨n0, nl, rfl⟩
    · exact absurd rfl hne
    · rw [List.append_nil, List.concat_eq_append, ← List.append_assoc] at hxy
      obtain ⟨h1, h2⟩ := concat_injL hxy
      have h3 : isPySpace nl = false := hnw nl (by simp [List.concat_eq_append])
      rw [← h2, hc] at h3
      cases h3
  · rw [List.concat_eq_append, ← List.append_assoc] at hxy
    obtain ⟨h1, h2⟩ := concat_injL hxy
    exact ⟨x, y0, by rw [h1]⟩

theorem split_drop_ws (n z : List Char) (hne : n ≠ [])
    (hnw : ∀ x ∈ n, isPySpace x = false) (t : List Char) :
    (∀ c ∈ t, isPySpace c = true) → (∃ x y, z ++ t = x ++ n ++ y) →
    ∃ x y, z = x ++ n ++ y := by
  induction t using List.reverseRecOn with
  | nil =>
    intro _ h
    simpa using h
  | append_singleton ts c ih =>
    intro ht h
    apply ih (fun d hd => ht d (by simp [hd]))
    apply split_drop_ws_concat n (z ++ ts) c (ht c (by simp)) hne hnw
    obtain ⟨x, y, hxy⟩ := h
    refine ⟨x, y, ?_⟩
    rw [List.append_assoc]
    exact hxy

theorem rstrip_decomp (l : List Char) :
    ∃ t, l = pyRStripL l ++ t ∧ ∀ c ∈ t, isPySpace c = true := by
  refine ⟨(l.reverse.takeWhile (fun c => isPySpace c)).reverse, ?_, ?_⟩
  · have h1 : l.reverse.takeWhile (fun c => isPySpace c) ++
        l.reverse.dropWhile (fun c => isPySpace c) = l.reverse :=
      List.takeWhile_append_dropWhile (fun c => isPySpace c) l.reverse
    calc l = l.reverse.reverse := (List.reverse_reverse l).symm
      _ = (l.reverse.takeWhile (fun c => isPySpace c) ++
            l.reverse.dropWhile (fun c => isPySpace c)).reverse := by rw [h1]
      _ = pyRStripL l ++ (l.reverse.takeWhile (fun c => isPySpace c)).reverse := by
            rw [List.reverse_append]
            rfl
  · intro c hc
    rw [List.mem_reverse] at hc
    exact List.mem_takeWhile_imp hc

theorem split_rstrip (n l : List Char) (hne : n ≠ [])
    (hnw : ∀ x ∈ n, isPySpace x = false)
    (h : ∃ x y, l = x ++ n ++ y) : ∃ x y, pyRStripL l = x ++ n ++ y := by
  obtain ⟨t, hdec, ht⟩ := rstrip_decomp l
  apply split_drop_ws n (pyRStripL l) hne hnw t ht
  rw [← hdec]
  exact h

/-- The alias-assignment block appended by `enhance_file` (lines 89-90):
one `alias = primary` line per needed alias, in order. -/
def aliasLines (primary : String) : List String → String
  | [] => ("")
  | a :: rest => a ++ (" = ") ++ primary ++ ("\n") ++ aliasLines primary rest

/-- `code_enhancer.py` `enhance_file` (lines 60-102) on the file text:
copy when there is no primary function (`info = none` also covers the
parse-failure path, which copies the original), when the primary name or
alias list is falsy, or when every alias already occurs in the text;
otherwise append the auto-generated alias block to the right-stripped
text. -/
def enhance_file (content : String) (info : Option (String × List String)) : String :=
  match info with
  | none => content
  | some (primary, aliases) =>
    if primary = ("") ∨ aliases = [] then content
    else
      let needed := aliases.filter (fun a => !(pyIn a content))
      if needed = [] then content
      else pyRStrip content ++ ("\n\n") ++
        ("# Auto-generated aliases for test compatibility\n") ++
        aliasLines primary needed

/-- Enhancement of a file whose `ast.walk` function names are
`walkNames`: `enhance_file` recomputes `get_function_info` on the same
source (lines 65-69). -/
def enhanceWith (content : String) (walkNames : List String) (pid : String) : String :=
  enhance_file content (get_function_info walkNames pid)

theorem get_function_info_aliases (names : List String) (pid p : String)
    (al : List String) (h : get_function_info names pid = some (p, al)) :
    ∀ a ∈ al, a = ("candidate") ∨ a = ("skjkasdkd") := by
  unfold get_function_info at h
  cases hfil : names.filter (fun n => !(pyStartsWith n ("_"))) with
  | nil => rw [hfil] at h; cases h
  | cons q rest =>
    rw [hfil] at h
    injection h with h
    injection h with h1 h2
    intro a ha
    rw [← h2] at ha
    rcases List.mem_append.mp ha with hm | hm
    · left
      revert hm
      split <;> simp_all
    · right
      revert hm
      split <;> simp_all

theorem aliasLines_mem_split (p a : String) (L : List String) (h : a ∈ L) :
    ∃ u v, (aliasLines p L).data = u ++ a.data ++ v := by
  induction L with
  | nil => cases h
  | cons b rest ih =>
    rcases List.mem_cons.mp h with rfl | hm
    · refine ⟨[], ((" = ") ++ p ++ ("\n") ++ aliasLines p rest).data, ?_⟩
      simp [aliasLines, string_data_append, List.append_assoc]
    · obtain ⟨u, v, huv⟩ := ih hm
      refine ⟨(b ++ (" = ") ++ p ++ ("\n")).data ++ u, v, ?_⟩
      simp [aliasLines, string_data_append, List.append_assoc, huv]

theorem enhance_second_copy (content p : String) (al : List String)
    (hform : ∀ a ∈ al, a = ("candidate") ∨ a = ("skjkasdkd"))
    (h1 : ¬(p = ("") ∨ al = []))
    (h2 : ¬(al.filter (fun a => !(pyIn a content)) = [])) :
    enhance_file (enhance_file content (some (p, al))) (some (p, al)) =
      enhance_file content (some (p, al)) := by
  have hE : enhance_file content (some (p, al)) =
      pyRStrip content ++ ("\n\n") ++
      ("# Auto-generated aliases for test compatibility\n") ++
      aliasLines p (al.filter (fun a => !(pyIn a content))) := by
    simp [enhance_file, h1, h2]
  have hallE : ∀ a ∈ al,
      pyIn a (pyRStrip content ++ ("\n\n") ++
        ("# Auto-generated aliases for test compatibility\n") ++
        aliasLines p (al.filter (fun a => !(pyIn a content)))) = true := by
    intro a ha
    have hform2 := hform a ha
    have hane : a.data ≠ [] := by
      rcases hform2 with rfl | rfl <;> decide
    have hanw : ∀ x ∈ a.data, isPySpace x = false := by
      rcases hform2 with rfl | rfl <;> decide
    by_cases hin : pyIn a content = true
    · have hsplit : ∃ x y, content.data = x ++ a.data ++ y :=
        (listInfixOf_iff _ _).mp hin
      obtain ⟨x, y, hxy⟩ := split_rstrip a.data content.data hane hanw hsplit
      show listInfixOf a.data (pyRStrip content ++ ("\n\n") ++
        ("# Auto-generated aliases for test compatibility\n") ++
        aliasLines p (al.filter (fun b => !(pyIn b content)))).data = true
      rw [listInfixOf_iff]
      refine ⟨x, y ++ (("\n\n").data ++
        ((("# Auto-generated aliases for test compatibility\n")).data ++
          (aliasLines p (al.filter (fun b => !(pyIn b content)))).data)), ?_⟩
      simp only [string_data_append, List.append_assoc]
      rw [show (pyRStrip content).data = pyRStripL content.data from rfl, hxy]
      simp [List.append_assoc]
    · have hmem : a ∈ al.filter (fun b => !(pyIn b content)) :=
        List.mem_filter.mpr ⟨ha, by simpa using hin⟩
      obtain ⟨u, v, huv⟩ :=
        aliasLines_mem_split p a (al.filter (fun b => !(pyIn b content))) hmem
      show listInfixOf a.data (pyRStrip content ++ ("\n\n") ++
        ("# Auto-generated aliases for test compatibility\n") ++
        aliasLines p (al.filter (fun b => !(pyIn b content)))).data = true
      rw [listInfixOf_iff]
      refine ⟨(pyRStrip content ++ ("\n\n") ++
        ("# Auto-generated aliases for test compatibility\n")).data ++ u, v, ?_⟩
      simp only [string_data_append, List.append_assoc, huv]
  have h2b : al.filter (fun a => !(pyIn a
      (pyRStrip content ++ ("\n\n") ++
        ("# Auto-generated aliases for test compatibility\n") ++
        aliasLines p (al.filter (fun b => !(pyIn b content)))))) = [] := by
    rw [List.filter_eq_nil_iff]
    intro a ha
    simp [hallE a ha]
  rw [hE]
  simp [enhance_file, h1, h2b]

/-- C10: file enhancement is idempotent and source-preserving: the
output is either an exact copy of the source text or the right-stripped
source followed only by the comment line and appended alias-assignment
lines; when every required alias already occurs in the text the file is
copied unchanged; and applying the enhancement twice (with the same
parsed function names, which appended assignment lines do not change)
equals applying it once. -/
theorem c10_enhancement_idempotent :
    (∀ (content : String) (info : Option (String × List String)),
      enhance_file content info = content ∨
      ∃ primary needed, needed ≠ [] ∧
        enhance_file content info =
          pyRStrip content ++ ("\n\n") ++
          ("# Auto-generated aliases for test compatibility\n") ++
          aliasLines primary needed)
    ∧ (∀ (content primary : String) (aliases : List String),
      (∀ a ∈ aliases, pyIn a content = true) →
      enhance_file content (some (primary, aliases)) = content)
    ∧ (∀ (content : String) (names : List String) (pid : String),
      enhanceWith (enhanceWith content names pid) names pid =
        enhanceWith content names pid) := by
  refine ⟨?_, ?_, ?_⟩
  · intro content info
    cases info with
    | none => exact Or.inl rfl
    | some pa =>
      obtain ⟨p, al⟩ := pa
      by_cases h1 : p = ("") ∨ al = []
      · left
        simp [enhance_file, h1]
      · by_cases h2 : al.filter (fun a => !(pyIn a content)) = []
        · left
          simp [enhance_file, h1, h2]
        · right
          exact ⟨p, al.filter (fun a => !(pyIn a content)), h2,
            by simp [enhance_file, h1, h2]⟩
  · intro content primary aliases hall
    by_cases h1 : primary = ("") ∨ aliases = []
    · simp [enhance_file, h1]
    · have h2 : aliases.filter (fun a => !(pyIn a content)) = [] := by
        rw [List.filter_eq_nil_iff]
        intro a ha
        simp [hall a ha]
      simp [enhance_file, h1, h2]
  · intro content names pid
    unfold enhanceWith
    cases hinfo : get_function_info names pid with
    | none => rfl
    | some pa =>
      obtain ⟨p, al⟩ := pa
      by_cases h1 : p = ("") ∨ al = []
      · simp [enhance_file, h1]
      · by_cases h2 : al.filter (fun a => !(pyIn a content)) = []
        · have hcopy : enhance_file content (some (p, al)) = content := by
            simp [enhance_file, h1, h2]
          rw [hcopy]
          exact hcopy
        · exact enhance_second_copy content p al
            (get_function_info_aliases names pid p al hinfo) h1 h2

/-- Witness for C10: a file already containing both alias names is
copied unchanged, and enhancing a `HumanEval/94` solution twice equals
enhancing it once. -/
theorem c10_witness :
    enhance_file ("x = 1\ncandidate = f\nskjkasdkd = f\n")
        (some (("f"), [("candidate"), ("skjkasdkd")])) =
      ("x = 1\ncandidate = f\nskjkasdkd = f\n")
    ∧ enhanceWith (enhanceWith ("def foo(x):\n    return x") [("foo")]
        ("HumanEval/94")) [("foo")] ("HumanEval/94") =
      enhanceWith ("def foo(x):\n    return x") [("foo")] ("HumanEval/94") := by
  constructor
  · exact c10_enhancement_idempotent.2.1 _ _ _ (by decide)
  · exact c10_enhancement_idempotent.2.2 _ _ _
